import Mathlib

/-!
Shallow embedding of the VA Form 21-0966 PDF filler
(`src/va_form_filler_complete.py`, `src/enhanced_field_discovery.py`).

Python strings are modelled as Lean `String`s; Python code-point slicing,
splitting and filtering are modelled on the underlying `List Char`.
Python's `datetime.now()` is modelled as an explicit `Today` parameter.
-/

namespace VAForm

/-- Python `s[a:]`.take-style slicing on code points: `s[start:stop]`. -/
def pySlice (s : String) (start stop : Nat) : String :=
  String.mk ((s.data.drop start).take (stop - start))

/-- Python `s[start:]`. -/
def pyDrop (s : String) (start : Nat) : String :=
  String.mk (s.data.drop start)

/-- Python `s[:stop]`. -/
def pyTake (s : String) (stop : Nat) : String :=
  String.mk (s.data.take stop)

/-- Python `len(s)` (number of code points). -/
def pyLen (s : String) : Nat := s.data.length

/-- Python `s.startswith(pre)`. -/
def pyStartsWith (s pre : String) : Bool := pre.data.isPrefixOf s.data

/-- Python `s.endswith(suf)`. -/
def pyEndsWith (s suf : String) : Bool := suf.data.isSuffixOf s.data

/-- Python `c in s` for a single-character needle. -/
def pyContainsChar (s : String) (c : Char) : Bool := s.data.contains c

/-- Python `s.split(sep)` for a single-character separator
(keeps empty parts; `"".split(sep) == [""]`). -/
def pySplitCharAux (sep : Char) : List Char → List Char → List (List Char)
  | [], acc => [acc.reverse]
  | c :: rest, acc =>
      if c = sep then acc.reverse :: pySplitCharAux sep rest []
      else pySplitCharAux sep rest (c :: acc)

def pySplitChar (sep : Char) (s : String) : List String :=
  (pySplitCharAux sep s.data []).map String.mk

/-- Keep only the characters satisfying `p`
(Python `''.join(filter(p, s))`, or chained single-char `str.replace(x, '')`). -/
def pyCharFilter (p : Char → Bool) (s : String) : String :=
  String.mk (s.data.filter p)

/-- Python `s.ljust(w, fill)`. -/
def pyLjust (s : String) (w : Nat) (fill : Char) : String :=
  String.mk (s.data ++ List.replicate (w - s.data.length) fill)

/-- Python `s.zfill(w)`: left-pad with `'0'`, keeping a leading sign in place. -/
def pyZfill (s : String) (w : Nat) : String :=
  match s.data with
  | [] => String.mk (List.replicate w '0')
  | c :: rest =>
      if c = '+' ∨ c = '-' then
        String.mk (c :: (List.replicate (w - 1 - rest.length) '0' ++ rest))
      else
        String.mk (List.replicate (w - s.data.length) '0' ++ s.data)

/-- Python `int(s)` (base 10): optional surrounding whitespace, optional
sign, then a non-empty digit string; `none` models a raised `ValueError`.
(Underscore digit grouping is not modelled.) -/
def parseDecDigits : List Char → Option Nat
  | [] => none
  | l => if l.all Char.isDigit then
           some (l.foldl (fun acc c => acc * 10 + (c.toNat - '0'.toNat)) 0)
         else none

def pyIntDec (s : String) : Option Int :=
  let l := (s.data.dropWhile Char.isWhitespace).reverse.dropWhile Char.isWhitespace |>.reverse
  match l with
  | '+' :: rest => (parseDecDigits rest).map (fun n => (n : Int))
  | '-' :: rest => (parseDecDigits rest).map (fun n => -(n : Int))
  | _ => (parseDecDigits l).map (fun n => (n : Int))

/-- Python `int(s, 16)`: optional whitespace, optional sign, optional
`0x`/`0X` prefix, then a non-empty hex-digit string; `none` models a raised
`ValueError`. (Underscore digit grouping is not modelled.) -/
def hexDigitVal (c : Char) : Option Nat :=
  if '0' ≤ c ∧ c ≤ '9' then some (c.toNat - '0'.toNat)
  else if 'a' ≤ c ∧ c ≤ 'f' then some (c.toNat - 'a'.toNat + 10)
  else if 'A' ≤ c ∧ c ≤ 'F' then some (c.toNat - 'A'.toNat + 10)
  else none

def parseHexDigits : List Char → Option Nat
  | [] => none
  | l => l.foldl (fun acc c => match acc, hexDigitVal c with
                   | some a, some v => some (a * 16 + v)
                   | _, _ => none) (some 0)

def pyIntHexCore (l : List Char) : Option Nat :=
  match l with
  | '0' :: 'x' :: rest => parseHexDigits rest
  | '0' :: 'X' :: rest => parseHexDigits rest
  | _ => parseHexDigits l

def pyIntHex (s : List Char) : Option Int :=
  let l := (s.dropWhile Char.isWhitespace).reverse.dropWhile Char.isWhitespace |>.reverse
  match l with
  | '+' :: rest => (pyIntHexCore rest).map (fun n => (n : Int))
  | '-' :: rest => (pyIntHexCore rest).map (fun n => -(n : Int))
  | _ => (pyIntHexCore l).map (fun n => (n : Int))

/-- Python `f"{n:02d}"` for a non-negative `n`. -/
def pyFormat02 (n : Nat) : String :=
  if n < 10 then "0" ++ toString n else toString n

/-! ### Value transformers (`va_form_filler_complete.py` lines 50–130) -/

/-- `handle_email_overflow` (lines 50–66): reversed overflow split with a
fixed chunk length of 20; returns `(email_part_0, email_part_1)` =
(remainder, first chunk). -/
def handle_email_overflow (email : String) : String × String :=
  if email = "" then ("", "")
  else if pyLen email ≤ 20 then ("", email)
  else (pyDrop email 20, pyTake email 20)

/-- `split_ssn` (lines 68–77): strip dashes and spaces, slice 3/2/4
positionally (both the warning branch and the normal branch return the
same slices). -/
def split_ssn (ssn : String) : String × String × String :=
  let clean := pyCharFilter (fun c => !(c = '-' || c = ' ')) ssn
  (pyTake clean 3, pySlice clean 3 5, pySlice clean 5 9)

/-- `split_phone` (lines 79–89): keep digits; if not exactly 10, right-pad
with `'0'` and truncate to 10; slice 3/3/4. -/
def split_phone (phone : String) : String × String × String :=
  let clean := pyCharFilter Char.isDigit phone
  let clean := if pyLen clean ≠ 10 then pyTake (pyLjust clean 10 '0') 10 else clean
  (pyTake clean 3, pySlice clean 3 6, pySlice clean 6 10)

/-- The `len(parts) == 3` body of `split_date` (lines 103–114), with the
sentinel also standing in for the caught `ValueError` of `int(year)`
(the surrounding `try`/`except` at lines 93, 116–118). -/
def splitDateParts (parts : List String) : String × String × String :=
  match parts with
  | [month, day, year] =>
      let month := pyZfill month 2
      let day := pyZfill day 2
      if pyLen year = 2 then
        match pyIntDec year with
        | some y => (month, day, (if y > 50 then "19" else "20") ++ year)
        | none => ("01", "01", "1970")
      else (month, day, year)
  | _ => ("01", "01", "1970")

/-- `split_date` (lines 91–118): split on `'/'` if present, else on `'-'`
if present, else return the sentinel; total (the `except` clause maps any
parse error to the sentinel). -/
def split_date (s : String) : String × String × String :=
  if pyContainsChar s '/' then splitDateParts (pySplitChar '/' s)
  else if pyContainsChar s '-' then splitDateParts (pySplitChar '-' s)
  else ("01", "01", "1970")

/-- `split_zip` (lines 120–130). -/
def split_zip (zipCode : String) : String × String :=
  let clean := pyCharFilter Char.isDigit zipCode
  if pyLen clean ≥ 5 then
    (pyTake clean 5, if pyLen clean > 5 then pySlice clean 5 9 else "")
  else (pyLjust clean 5 '0', "")

/-! ### Name decoding (`enhanced_field_discovery.py` lines 12–38,
identical copy at `va_form_filler_complete.py` lines 330–349) -/

/-- Chunk a hex payload into groups of 4 characters (the last group may be
shorter), mirroring `range(0, len(hex_content), 4)` with clamped slices. -/
def hexChunks4 : List Char → List (List Char)
  | [] => []
  | [a] => [[a]]
  | [a, b] => [[a, b]]
  | [a, b, c] => [[a, b, c]]
  | a :: b :: c :: d :: rest => [a, b, c, d] :: hexChunks4 rest

/-- The `try` body of the `<FEFF...>` branch: decode each 4-hex-digit chunk
with `int(hex_char, 16)` and `chr`; `none` models a raised exception
(a chunk `int` cannot parse, or a negative code for `chr`). -/
def decodeHexPayload (payload : List Char) : Option String :=
  (hexChunks4 payload).foldr
    (fun chunk acc =>
      match pyIntHex chunk, acc with
      | some code, some rest =>
          if 0 ≤ code then some (String.mk [Char.ofNat code.toNat] ++ rest) else none
      | _, _ => none)
    (some "")

/-- `decode_unicode_field_name`: `<FEFF...>`-wrapped tokens get best-effort
hex decoding falling back to the raw token; `(...)`-wrapped tokens are
unwrapped; anything else is returned unchanged. Total by construction
(the bare `except` returns the original token). -/
def decode_unicode_field_name (s : String) : String :=
  if pyStartsWith s "<FEFF" && pyEndsWith s ">" then
    match decodeHexPayload (pySlice s 5 (pyLen s - 1)).data with
    | some decoded => decoded
    | none => s
  else if pyStartsWith s "(" && pyEndsWith s ")" then
    pySlice s 1 (pyLen s - 1)
  else s

/-! ### InputRecord (the JSON input consumed by `create_field_mapping`).
Absent optional string fields are modelled as `""` (matching the Python
`dict.get(key, '')` defaults combined with truthiness tests); absent
election flags are `none` (`dict.get(key, False)`). -/

structure Address where
  street : String := ""
  apt_unit : String := ""
  city : String := ""
  state : String := ""
  country : String := ""
  zip_code : String := ""
  deriving DecidableEq

structure VeteranInfo where
  first_name : String := ""
  middle_initial : String := ""
  last_name : String := ""
  date_of_birth : String := ""
  ssn : String := ""
  phone : String := ""
  email : String := ""
  va_file_number : String := ""
  service_number : String := ""
  address : Address := {}
  deriving DecidableEq

structure BenefitElection where
  compensation : Option Bool := none
  pension : Option Bool := none
  survivors_pension_dic : Option Bool := none
  deriving DecidableEq

structure SignatureInfo where
  date_signed : String := ""
  attorney_agent_vso_name : String := ""
  deriving DecidableEq

structure InputRecord where
  veteran_info : VeteranInfo
  benefit_election : BenefitElection := {}
  signature_info : SignatureInfo := {}
  deriving DecidableEq

/-- The wall clock read by `datetime.now()` at line 170, made explicit. -/
structure Today where
  month : Nat
  day : Nat
  year : Nat
  deriving DecidableEq

/-- The fixed checkbox paths (lines 237, 240, 243). -/
def compensationKey : String := "F[0].#subform[1].COMPENSATION[0]"
def pensionKey : String := "F[0].#subform[1].PENSION[0]"
def survivorsKey : String :=
  "F[0].#subform[1].SURVIVORS_PENSION_AND_OR_DEPENDENCY_AND_INDEMNITY_COMPENSATION_DIC[0]"

/-- The dict literal of lines 184–231 (insertion order preserved). -/
def baseFieldMapping (today : Today) (data : InputRecord) : List (String × String) :=
  let veteran_info := data.veteran_info
  let signature_info := data.signature_info
  let (email_0, email_1) := handle_email_overflow veteran_info.email
  let (ssn_1, ssn_2, ssn_3) :=
    if veteran_info.ssn ≠ "" then split_ssn veteran_info.ssn else ("", "", "")
  let (phone_1, phone_2, phone_3) :=
    if veteran_info.phone ≠ "" then split_phone veteran_info.phone else ("", "", "")
  let (dob_month, dob_day, dob_year) :=
    if veteran_info.date_of_birth ≠ "" then split_date veteran_info.date_of_birth
    else ("", "", "")
  let (sig_month, sig_day, sig_year) :=
    if signature_info.date_signed ≠ "" then split_date signature_info.date_signed
    else (pyFormat02 today.month, pyFormat02 today.day, toString today.year)
  let address := veteran_info.address
  let (zip_5, zip_4) :=
    if address.zip_code ≠ "" then split_zip address.zip_code else ("", "")
  [("F[0].Page_1[0].Veterans_First_Name[0]", veteran_info.first_name),
   ("F[0].Page_1[0].Veterans_Middle_Initial1[0]", veteran_info.middle_initial),
   ("F[0].Page_1[0].Veterans_Last_Name[0]", veteran_info.last_name),
   ("F[0].Page_1[0].Veterans_Social_SecurityNumber_FirstThreeNumbers[0]", ssn_1),
   ("F[0].Page_1[0].Veterans_Social_SecurityNumber_SecondTwoNumbers[0]", ssn_2),
   ("F[0].Page_1[0].VeteransSocialSecurityNumber_LastFourNumbers[0]", ssn_3),
   ("F[0].Page_1[0].DOB_Month[0]", dob_month),
   ("F[0].Page_1[0].DOB_Day[0]", dob_day),
   ("F[0].Page_1[0].DOB_Year[0]", dob_year),
   ("F[0].Page_1[0].EMAIL_ADDRESS[0]", email_0),
   ("F[0].Page_1[0].EMAIL_ADDRESS[1]", email_1),
   ("F[0].Page_1[0].Telephone_Number_FirstThreeNumbers[0]", phone_1),
   ("F[0].Page_1[0].Telephone_Number_SecondThreeNumbers[0]", phone_2),
   ("F[0].Page_1[0].Telephone_Number_LastFourNumbers[0]", phone_3),
   ("F[0].Page_1[0].Mailing_Address_NumberAndStreet[0]", address.street),
   ("F[0].Page_1[0].Mailing_Address_ApartmentOrUnitNumber[0]", address.apt_unit),
   ("F[0].Page_1[0].MailingAddress_City[0]", address.city),
   ("F[0].Page_1[0].MailingAddress_StateOrProvince[0]", address.state),
   ("F[0].Page_1[0].MailingAddress_Country[0]", address.country),
   ("F[0].Page_1[0].MailingAddress_ZIPOrPostalCode_FirstFiveNumbers[0]", zip_5),
   ("F[0].Page_1[0].MailingAddress_ZIPOrPostalCode_LastFourNumbers[0]", zip_4),
   ("F[0].Page_1[0].VA_File_Number[0]", veteran_info.va_file_number),
   ("F[0].Page_1[0].Veterans_Service_Number[0]", veteran_info.service_number),
   ("F[0].#subform[1].Date_Signed_Month[0]", sig_month),
   ("F[0].#subform[1].Date_Signed_Day[0]", sig_day),
   ("F[0].#subform[1].Date_Signed_Year[0]", sig_year),
   ("F[0].#subform[1].Name_Of_Attorney_Agent_Or_Veterans_Service_Organization_VS[0]",
    signature_info.attorney_agent_vso_name)]

/-- `create_field_mapping` (lines 132–248): the dict literal followed by
the conditional checkbox inserts (only true flags get an entry). -/
def create_field_mapping (today : Today) (data : InputRecord) : List (String × String) :=
  let benefit_election := data.benefit_election
  let m := baseFieldMapping today data
  let m := if benefit_election.compensation.getD false then m ++ [(compensationKey, "/1")] else m
  let m := if benefit_election.pension.getD false then m ++ [(pensionKey, "/1")] else m
  if benefit_election.survivors_pension_dic.getD false then m ++ [(survivorsKey, "/1")] else m

/-- First-match association lookup: our keys are pairwise distinct string
literals, so this coincides with Python dict lookup. -/
def lookupKey (m : List (String × String)) (k : String) : Option String :=
  match m with
  | [] => none
  | (k', v) :: rest => if k' = k then some v else lookupKey rest k

/-! ### The AcroForm field tree and `find_and_fill_field`
(`va_form_filler_complete.py` lines 250–328). A pdfrw field object is
modelled by its attributes read by the code: `/T` (raw name token, absent =
`none`), `/FT` (type name such as `"/Btn"`), `/V`, `/AS`, and `/Kids`. -/

inductive Field where
  | mk (T : Option String) (FT : Option String) (V : Option String)
       (AS : Option String) (Kids : List Field)

def Field.T : Field → Option String
  | .mk t _ _ _ _ => t

def Field.FT : Field → Option String
  | .mk _ ft _ _ _ => ft

def Field.V : Field → Option String
  | .mk _ _ v _ _ => v

def Field.AS : Field → Option String
  | .mk _ _ _ a _ => a

def Field.Kids : Field → List Field
  | .mk _ _ _ _ k => k

/-- The value mutation of lines 311–316: a `/Btn` field gets both `V` and
`AS` set to `PdfName(value.replace('/', ''))` (all slashes removed); any
other field gets `V` set verbatim. -/
def applyValue (f : Field) (value : String) : Field :=
  match f with
  | .mk t ft _ a k =>
      if ft = some "/Btn" then
        .mk t ft (some (pyCharFilter (fun c => !(c = '/')) value))
          (some (pyCharFilter (fun c => !(c = '/')) value)) k
      else
        .mk t ft (some value) a k

/-- `find_and_fill_field` (lines 290–328): depth-first scan over the
sibling list; a nameless field (`field.T` absent) is skipped without
descending; the first field whose decoded full path equals the target is
mutated and the search stops. Returns the (functionally) updated sibling
list and the `found` flag. -/
def findAndFill : List Field → String → String → String → List Field × Bool
  | [], _, _, _ => ([], false)
  | .mk t ft v a kids :: fs, target, value, parentPath =>
      match t with
      | none =>
          let r := findAndFill fs target value parentPath
          (.mk t ft v a kids :: r.1, r.2)
      | some rawName =>
          let fieldName := decode_unicode_field_name rawName
          let fullPath :=
            if parentPath ≠ "" then parentPath ++ "." ++ fieldName else fieldName
          if fullPath = target then
            (applyValue (.mk t ft v a kids) value :: fs, true)
          else
            match kids with
            | [] =>
                let r := findAndFill fs target value parentPath
                (.mk t ft v a kids :: r.1, r.2)
            | k0 :: krest =>
                let rk := findAndFill (k0 :: krest) target value fullPath
                if rk.2 then (.mk t ft v a rk.1 :: fs, true)
                else
                  let r := findAndFill fs target value parentPath
                  (.mk t ft v a kids :: r.1, r.2)

/-- The set (in visit order) of full dotted paths `find_and_fill_field`
can ever compare against the target: named fields and their recursively
named descendants; a nameless field hides its entire subtree. -/
def reachablePaths : List Field → String → List String
  | [], _ => []
  | .mk t _ _ _ kids :: fs, parentPath =>
      match t with
      | none => reachablePaths fs parentPath
      | some rawName =>
          let fieldName := decode_unicode_field_name rawName
          let fullPath :=
            if parentPath ≠ "" then parentPath ++ "." ++ fieldName else fieldName
          fullPath :: (reachablePaths kids fullPath ++ reachablePaths fs parentPath)

/-- `fill_form` (lines 250–288): iterate the value map in order, skip
empty values, attempt each remaining entry independently, and count
successes and failures. Returns the updated tree with
`(filled_count, failed_count)`. -/
def fill_form : List Field → List (String × String) → List Field × Nat × Nat
  | tree, [] => (tree, 0, 0)
  | tree, (fieldName, fieldValue) :: rest =>
      if fieldValue = "" then fill_form tree rest
      else
        let r := findAndFill tree fieldName fieldValue ""
        let rec' := fill_form r.1 rest
        if r.2 then (rec'.1, rec'.2.1 + 1, rec'.2.2)
        else (rec'.1, rec'.2.1, rec'.2.2 + 1)

/-- `date_str` is a 3-part `'/'`- or `'-'`-separated date in the sense of
`split_date`'s happy path: the separator actually chosen by the code
(`'/'` checked first) splits it into exactly three parts. -/
def threePartDate (s : String) : Bool :=
  if pyContainsChar s '/' then (pySplitChar '/' s).length == 3
  else if pyContainsChar s '-' then (pySplitChar '-' s).length == 3
  else false

/-! ### Concrete inputs used by witnesses and counterexamples -/

/-- A valid input record (required identity fields present) that leaves
`signature_info.date_signed` and all other optionals absent. -/
def sampleRecord : InputRecord :=
  { veteran_info := { first_name := "John", last_name := "Doe",
                      date_of_birth := "1/2/80" } }

def sampleToday : Today := ⟨10, 12, 2025⟩

def otherToday : Today := ⟨3, 4, 2026⟩

/-- A valid input record with several optionals present (ssn, phone,
email) while others (middle initial, VA file number, service number,
address, signature info) are absent. -/
def mixedRecord : InputRecord :=
  { veteran_info := { first_name := "John", last_name := "Doe",
                      date_of_birth := "1/2/80", ssn := "123-45-6789",
                      phone := "5551234567", email := "john.doe@example.com" } }

/-- Two sibling text fields whose raw tokens both decode to `A`. -/
def dupEarlier : Field := .mk (some "(A)") (some "/Tx") none none []
def dupLater : Field := .mk (some "(A)") (some "/Tx") none none []

/-- A nameless field (`/T` absent) hiding a named child `X`. -/
def namelessField : Field :=
  .mk none (some "/Tx") none none [.mk (some "(X)") (some "/Tx") none none []]

/-! ### Helper lemmas -/

theorem findAndFill_not_reachable_aux :
    ∀ (n : Nat) (fields : List Field) (target value parentPath : String),
      sizeOf fields ≤ n →
      target ∉ reachablePaths fields parentPath →
      findAndFill fields target value parentPath = (fields, false) := by
  intro n
  induction n with
  | zero =>
      intro fields target value parentPath hsz _
      cases fields with
      | nil => simp [findAndFill]
      | cons f fs => exfalso; cases f; simp at hsz
  | succ n ih =>
      intro fields target value parentPath hsz hmem
      cases fields with
      | nil => simp [findAndFill]
      | cons f fs =>
        cases f with
        | mk t ft v a kids =>
          have hszf : sizeOf fs ≤ n := by simp at hsz; omega
          have hszk : sizeOf kids ≤ n := by simp at hsz; omega
          cases t with
          | none =>
              rw [reachablePaths] at hmem
              simp only [findAndFill, ih fs target value parentPath hszf hmem]
          | some rawName =>
              rw [reachablePaths] at hmem
              simp only [List.mem_cons, List.mem_append, not_or] at hmem
              obtain ⟨hne, hnk, hnf⟩ := hmem
              cases kids with
              | nil =>
                  simp only [findAndFill]
                  rw [if_neg (fun he => hne he.symm)]
                  simp [ih fs target value parentPath hszf hnf]
              | cons k0 krest =>
                  simp only [findAndFill]
                  rw [if_neg (fun he => hne he.symm)]
                  rw [ih (k0 :: krest) target value _ hszk hnk]
                  simp [ih fs target value parentPath hszf hnf]

/-- A target path nowhere among the reachable decoded paths is reported
not found and leaves the tree untouched. -/
theorem findAndFill_not_reachable (fields : List Field)
    (target value parentPath : String)
    (h : target ∉ reachablePaths fields parentPath) :
    findAndFill fields target value parentPath = (fields, false) :=
  findAndFill_not_reachable_aux (sizeOf fields) fields target value parentPath
    le_rfl h

theorem lookupKey_append_of_some (l₁ l₂ : List (String × String)) (k v : String)
    (h : lookupKey l₁ k = some v) : lookupKey (l₁ ++ l₂) k = some v := by
  induction l₁ with
  | nil => simp [lookupKey] at h
  | cons p rest ih =>
      rw [lookupKey] at h
      rw [List.cons_append, lookupKey]
      by_cases hk : p.1 = k
      · simpa [hk] using h
      · rw [if_neg hk] at h ⊢
        exact ih h

/-- The conditional checkbox inserts only ever append to the dict literal. -/
theorem create_field_mapping_eq_base_append (today : Today) (data : InputRecord) :
    ∃ suffix, create_field_mapping today data = baseFieldMapping today data ++ suffix := by
  unfold create_field_mapping
  rcases hc : data.benefit_election.compensation.getD false <;>
  rcases hp : data.benefit_election.pension.getD false <;>
  rcases hs : data.benefit_election.survivors_pension_dic.getD false <;>
  exact ⟨_, by simp [hc, hp, hs]; try rfl⟩

/-- When `date_signed` is absent the three signature-date entries carry
the formatted wall-clock date. -/
theorem lookup_sig_date (today : Today) (data : InputRecord)
    (h : data.signature_info.date_signed = "") :
    lookupKey (create_field_mapping today data)
      "F[0].#subform[1].Date_Signed_Month[0]" = some (pyFormat02 today.month) ∧
    lookupKey (create_field_mapping today data)
      "F[0].#subform[1].Date_Signed_Day[0]" = some (pyFormat02 today.day) ∧
    lookupKey (create_field_mapping today data)
      "F[0].#subform[1].Date_Signed_Year[0]" = some (toString today.year) := by
  obtain ⟨suffix, hs⟩ := create_field_mapping_eq_base_append today data
  rw [hs]
  refine ⟨?_, ?_, ?_⟩ <;>
    (apply lookupKey_append_of_some;
     simp only [baseFieldMapping, h, ne_eq, not_true_eq_false, if_false, ite_false];
     simp [lookupKey])

theorem splitDateParts_of_length_ne_three (parts : List String)
    (h : parts.length ≠ 3) : splitDateParts parts = ("01", "01", "1970") := by
  rcases parts with _ | ⟨a, _ | ⟨b, _ | ⟨c, _ | ⟨d, rest⟩⟩⟩⟩ <;>
    simp [splitDateParts] <;> simp at h

/-! ### Claim theorems -/

/-- Claim C1: for every input record, the election-flag keys of
`create_field_mapping`'s output are exactly the true `benefit_election`
flags — each true flag contributes exactly one entry mapping its fixed
checkbox path to `"/1"`, and a false or absent flag contributes no key at
all (no explicit unselected token). -/
theorem claim_C1_election_flag_keys (today : Today) (data : InputRecord) :
    (lookupKey (create_field_mapping today data) compensationKey =
      if data.benefit_election.compensation.getD false then some "/1" else none) ∧
    (lookupKey (create_field_mapping today data) pensionKey =
      if data.benefit_election.pension.getD false then some "/1" else none) ∧
    (lookupKey (create_field_mapping today data) survivorsKey =
      if data.benefit_election.survivors_pension_dic.getD false then some "/1" else none) ∧
    ((create_field_mapping today data).filter (fun p => p.1 == compensationKey)).length =
      (if data.benefit_election.compensation.getD false then 1 else 0) ∧
    ((create_field_mapping today data).filter (fun p => p.1 == pensionKey)).length =
      (if data.benefit_election.pension.getD false then 1 else 0) ∧
    ((create_field_mapping today data).filter (fun p => p.1 == survivorsKey)).length =
      (if data.benefit_election.survivors_pension_dic.getD false then 1 else 0) := by
  rcases hc : data.benefit_election.compensation.getD false <;>
  rcases hp : data.benefit_election.pension.getD false <;>
  rcases hs : data.benefit_election.survivors_pension_dic.getD false <;>
  simp [create_field_mapping, baseFieldMapping, lookupKey, hc, hp, hs,
    compensationKey, pensionKey, survivorsKey]

/-- Claim C2: `handle_email_overflow` (chunk length fixed at 20) returns
`(remainder, first_chunk)` with the reversed assignment: inputs of length
at most 20 give an empty remainder and the whole input as the chunk,
longer inputs give the first 20 characters as the chunk and the rest as
the remainder; in particular on `"short@x.com"` and on 25 `'a'`s. -/
theorem claim_C2_email_overflow_reversed (s : String) :
    (pyLen s ≤ 20 → handle_email_overflow s = ("", s)) ∧
    (20 < pyLen s → handle_email_overflow s = (pyDrop s 20, pyTake s 20)) ∧
    handle_email_overflow "short@x.com" = ("", "short@x.com") ∧
    handle_email_overflow (String.mk (List.replicate 25 'a')) =
      (String.mk (List.replicate 5 'a'), String.mk (List.replicate 20 'a')) := by
  refine ⟨?_, ?_, by decide, by decide⟩
  · intro h
    by_cases hs : s = "" <;> simp [handle_email_overflow, hs, h]
  · intro h
    have hs : s ≠ "" := by
      intro he; subst he; simp [pyLen] at h
    simp [handle_email_overflow, hs, show ¬pyLen s ≤ 20 by omega]

/-- Witness for C2 at the concrete inputs `"abc"` and 25 `'a'`s. -/
theorem claim_C2_witness :
    handle_email_overflow "abc" = ("", "abc") ∧
    handle_email_overflow (String.mk (List.replicate 25 'a')) =
      (String.mk (List.replicate 5 'a'), String.mk (List.replicate 20 'a')) :=
  ⟨(claim_C2_email_overflow_reversed "abc").1 (by decide),
   (claim_C2_email_overflow_reversed (String.mk (List.replicate 25 'a'))).2.1 (by decide)⟩

/-- Claim C6: on every input that is not a 3-part `'/'`- or `'-'`-separated
date, `split_date` returns the sentinel `("01", "01", "1970")`. (It never
raises on any input: the `try`/`except` of the source is embedded as the
total `none → sentinel` branch inside `splitDateParts`, so `split_date` is
total by construction.) -/
theorem claim_C6_split_date_sentinel (s : String) (h : threePartDate s = false) :
    split_date s = ("01", "01", "1970") := by
  rw [threePartDate] at h
  rw [split_date]
  by_cases h1 : pyContainsChar s '/'
  · rw [if_pos h1] at h ⊢
    exact splitDateParts_of_length_ne_three _ (by simpa using h)
  · rw [if_neg h1] at h ⊢
    by_cases h2 : pyContainsChar s '-'
    · rw [if_pos h2] at h ⊢
      exact splitDateParts_of_length_ne_three _ (by simpa using h)
    · rw [if_neg h2]

/-- Witness for C6 at the concrete unparseable input `"hello"`. -/
theorem claim_C6_witness :
    threePartDate "hello" = false ∧ split_date "hello" = ("01", "01", "1970") :=
  ⟨by decide, claim_C6_split_date_sentinel "hello" (by decide)⟩

/-- Claim C7: on a 3-part date whose year has exactly 2 digits, month and
day are zero-padded to two digits and the year is expanded by the pivot
rule (numeric value `> 50` gets prefix `"19"`, anything else `"20"`); in
particular `split_date "3/4/99" = ("03","04","1999")` and
`split_date "3/4/05" = ("03","04","2005")`. -/
theorem claim_C7_pivot_year (month day year : String) (n : Int)
    (hlen : pyLen year = 2) (hint : pyIntDec year = some n) :
    splitDateParts [month, day, year] =
      (pyZfill month 2, pyZfill day 2, (if n > 50 then "19" else "20") ++ year) ∧
    split_date "3/4/99" = ("03", "04", "1999") ∧
    split_date "3/4/05" = ("03", "04", "2005") := by
  refine ⟨?_, by decide, by decide⟩
  simp [splitDateParts, hlen, hint]

/-- Witness for C7 at the concrete year parts `"99"` and `"05"`. -/
theorem claim_C7_witness :
    splitDateParts ["3", "4", "99"] = ("03", "04", "1999") ∧
    splitDateParts ["3", "4", "05"] = ("03", "04", "2005") := by
  constructor
  · have h := (claim_C7_pivot_year "3" "4" "99" 99 (by decide) (by decide)).1
    simpa using h
  · have h := (claim_C7_pivot_year "3" "4" "05" 5 (by decide) (by decide)).1
    simpa using h

/-- Claim C8: `decode_unicode_field_name` is total (every internal parse
or `chr` failure is modelled by `decodeHexPayload` returning `none`, the
caught-exception path), and on a `<FEFF...>`-wrapped token whose hex
payload is malformed it returns the original raw token unchanged. -/
theorem claim_C8_decode_malformed_fallback (s : String)
    (h1 : pyStartsWith s "<FEFF" = true) (h2 : pyEndsWith s ">" = true)
    (h3 : decodeHexPayload (pySlice s 5 (pyLen s - 1)).data = none) :
    decode_unicode_field_name s = s := by
  simp [decode_unicode_field_name, h1, h2, h3]

/-- Witness for C8 at the concrete malformed token `"<FEFFzz08>"`. -/
theorem claim_C8_witness :
    pyStartsWith "<FEFFzz08>" "<FEFF" = true ∧ pyEndsWith "<FEFFzz08>" ">" = true ∧
    decodeHexPayload (pySlice "<FEFFzz08>" 5 (pyLen "<FEFFzz08>" - 1)).data = none ∧
    decode_unicode_field_name "<FEFFzz08>" = "<FEFFzz08>" :=
  ⟨by decide, by decide, by decide,
   claim_C8_decode_malformed_fallback "<FEFFzz08>" (by decide) (by decide) (by decide)⟩

/-- Counterexample to C3 as stated: `sampleRecord` is a valid record with
`signature_info.date_signed` absent, yet on 2025-10-12 the signature-month
entry holds `"10"` (the formatted wall-clock month), not the empty string
the claim asserts. -/
theorem claim_C3_counterexample :
    lookupKey (create_field_mapping sampleToday sampleRecord)
      "F[0].#subform[1].Date_Signed_Month[0]" = some "10" ∧
    (some "10" : Option String) ≠ some "" := by
  constructor
  · decide
  · decide

/-- Claim C3 (amended): for every record, each optional scalar field
considered on its own — whatever the other fields hold — still has its
target key(s) present and mapped to the empty string when that field is
absent; except the signature date: an absent `date_signed` makes the
three signature-date paths carry the formatted current wall-clock date
(zero-padded month and day, decimal year), not empty strings. -/
theorem claim_C3_missing_optionals (today : Today) (data : InputRecord) :
    (data.veteran_info.middle_initial = "" →
      lookupKey (create_field_mapping today data) "F[0].Page_1[0].Veterans_Middle_Initial1[0]" = some "") ∧
    (data.veteran_info.ssn = "" →
      lookupKey (create_field_mapping today data) "F[0].Page_1[0].Veterans_Social_SecurityNumber_FirstThreeNumbers[0]" = some "" ∧
      lookupKey (create_field_mapping today data) "F[0].Page_1[0].Veterans_Social_SecurityNumber_SecondTwoNumbers[0]" = some "" ∧
      lookupKey (create_field_mapping today data) "F[0].Page_1[0].VeteransSocialSecurityNumber_LastFourNumbers[0]" = some "") ∧
    (data.veteran_info.phone = "" →
      lookupKey (create_field_mapping today data) "F[0].Page_1[0].Telephone_Number_FirstThreeNumbers[0]" = some "" ∧
      lookupKey (create_field_mapping today data) "F[0].Page_1[0].Telephone_Number_SecondThreeNumbers[0]" = some "" ∧
      lookupKey (create_field_mapping today data) "F[0].Page_1[0].Telephone_Number_LastFourNumbers[0]" = some "") ∧
    (data.veteran_info.email = "" →
      lookupKey (create_field_mapping today data) "F[0].Page_1[0].EMAIL_ADDRESS[0]" = some "" ∧
      lookupKey (create_field_mapping today data) "F[0].Page_1[0].EMAIL_ADDRESS[1]" = some "") ∧
    (data.veteran_info.va_file_number = "" →
      lookupKey (create_field_mapping today data) "F[0].Page_1[0].VA_File_Number[0]" = some "") ∧
    (data.veteran_info.service_number = "" →
      lookupKey (create_field_mapping today data) "F[0].Page_1[0].Veterans_Service_Number[0]" = some "") ∧
    (data.veteran_info.address.street = "" →
      lookupKey (create_field_mapping today data) "F[0].Page_1[0].Mailing_Address_NumberAndStreet[0]" = some "") ∧
    (data.veteran_info.address.apt_unit = "" →
      lookupKey (create_field_mapping today data) "F[0].Page_1[0].Mailing_Address_ApartmentOrUnitNumber[0]" = some "") ∧
    (data.veteran_info.address.city = "" →
      lookupKey (create_field_mapping today data) "F[0].Page_1[0].MailingAddress_City[0]" = some "") ∧
    (data.veteran_info.address.state = "" →
      lookupKey (create_field_mapping today data) "F[0].Page_1[0].MailingAddress_StateOrProvince[0]" = some "") ∧
    (data.veteran_info.address.country = "" →
      lookupKey (create_field_mapping today data) "F[0].Page_1[0].MailingAddress_Country[0]" = some "") ∧
    (data.veteran_info.address.zip_code = "" →
      lookupKey (create_field_mapping today data) "F[0].Page_1[0].MailingAddress_ZIPOrPostalCode_FirstFiveNumbers[0]" = some "" ∧
      lookupKey (create_field_mapping today data) "F[0].Page_1[0].MailingAddress_ZIPOrPostalCode_LastFourNumbers[0]" = some "") ∧
    (data.signature_info.attorney_agent_vso_name = "" →
      lookupKey (create_field_mapping today data) "F[0].#subform[1].Name_Of_Attorney_Agent_Or_Veterans_Service_Organization_VS[0]" = some "") ∧
    (data.signature_info.date_signed = "" →
      lookupKey (create_field_mapping today data) "F[0].#subform[1].Date_Signed_Month[0]" = some (pyFormat02 today.month) ∧
      lookupKey (create_field_mapping today data) "F[0].#subform[1].Date_Signed_Day[0]" = some (pyFormat02 today.day) ∧
      lookupKey (create_field_mapping today data) "F[0].#subform[1].Date_Signed_Year[0]" = some (toString today.year)) := by
  obtain ⟨suffix, hs⟩ := create_field_mapping_eq_base_append today data
  rw [hs]
  and_intros <;> intro h <;> and_intros <;>
    (apply lookupKey_append_of_some;
     simp only [baseFieldMapping, h, ne_eq, not_true_eq_false, if_false, ite_false];
     simp [lookupKey, handle_email_overflow])

/-- Witness for the amended C3 at the concrete day `sampleToday` and
`mixedRecord`, where ssn, phone and email are present while middle
initial, VA file number and the signature date are absent — exercising
the per-field conjuncts independently of the other fields. -/
theorem claim_C3_witness :
    lookupKey (create_field_mapping sampleToday mixedRecord)
      "F[0].Page_1[0].Veterans_Middle_Initial1[0]" = some "" ∧
    lookupKey (create_field_mapping sampleToday mixedRecord)
      "F[0].Page_1[0].VA_File_Number[0]" = some "" ∧
    lookupKey (create_field_mapping sampleToday mixedRecord)
      "F[0].#subform[1].Date_Signed_Day[0]" = some (pyFormat02 sampleToday.day) := by
  obtain ⟨h1, _, _, _, h5, _, _, _, _, _, _, _, _, h14⟩ :=
    claim_C3_missing_optionals sampleToday mixedRecord
  exact ⟨h1 rfl, h5 rfl, (h14 rfl).2.1⟩

/-- Counterexample to C4 as stated: in a tree with two siblings both
decoding to `A`, filling path `A` writes the first (earlier) sibling and
leaves the later one untouched — not the outcome the claim predicts, in
which the earlier sibling is untouched and the later one is written. -/
theorem claim_C4_counterexample :
    findAndFill [dupEarlier, dupLater] "A" "new" "" =
      ([applyValue dupEarlier "new", dupLater], true) ∧
    [applyValue dupEarlier "new", dupLater] ≠ [dupEarlier, applyValue dupLater "new"] := by
  have hdec : decode_unicode_field_name "(A)" = "A" := by decide
  constructor
  · simp [findAndFill, dupEarlier, dupLater, hdec]
  · simp [applyValue, dupEarlier, dupLater]

/-- Claim C4 (amended): `find_and_fill_field` resolves a duplicated path
to the node that appears earlier in sibling order — the linear scan stops
at the first sibling whose decoded name matches the target, mutates it,
and returns with every later sibling (including any later duplicate)
unchanged. -/
theorem claim_C4_first_match (rawName : String) (ft v a : Option String)
    (kids fs : List Field) (target value : String)
    (h : decode_unicode_field_name rawName = target) :
    findAndFill (Field.mk (some rawName) ft v a kids :: fs) target value "" =
      (applyValue (Field.mk (some rawName) ft v a kids) value :: fs, true) := by
  cases kids <;> simp [findAndFill, h]

/-- Witness for the amended C4 on the concrete duplicate-sibling tree. -/
theorem claim_C4_witness :
    findAndFill [dupEarlier, dupLater] "A" "v2" "" =
      (applyValue dupEarlier "v2" :: [dupLater], true) := by
  have h := claim_C4_first_match "(A)" (some "/Tx") none none [] [dupLater] "A" "v2"
    (by decide)
  simpa [dupEarlier] using h

/-- Claim C5: `fill_form` skips every empty-valued entry outright (the
tree and both counters are exactly those of the remaining entries), and a
non-empty entry whose path matches no field is recorded as a failure
while the tree is left unchanged and all remaining entries are still
processed — no entry aborts the batch and nothing is rolled back. -/
theorem claim_C5_fill_form_policy (tree : List Field)
    (rest : List (String × String)) (k v : String) :
    (fill_form tree ((k, "") :: rest) = fill_form tree rest) ∧
    (v ≠ "" → k ∉ reachablePaths tree "" →
      fill_form tree ((k, v) :: rest) =
        ((fill_form tree rest).1, (fill_form tree rest).2.1,
         (fill_form tree rest).2.2 + 1)) := by
  constructor
  · simp [fill_form]
  · intro hv hk
    simp [fill_form, hv, findAndFill_not_reachable tree k v "" hk]

/-- Witness for C5: an empty-valued entry is skipped and an unknown path
is counted as failed while the tree survives unchanged. -/
theorem claim_C5_witness :
    fill_form [dupEarlier] [("A", ""), ("Nope", "x")] = ([dupEarlier], 0, 1) := by
  have hdec : decode_unicode_field_name "(A)" = "A" := by decide
  have h1 := (claim_C5_fill_form_policy [dupEarlier] [("Nope", "x")] "A" "").1
  have h2 := (claim_C5_fill_form_policy [dupEarlier] [] "Nope" "x").2 (by decide)
    (by simp [reachablePaths, dupEarlier, hdec])
  rw [h1, h2]
  simp [fill_form]

/-- Claim C9: `create_field_mapping` reads the wall clock when
`signature_info.date_signed` is absent, so it is not a function of the
input record alone: two runs on the identical record on days whose
formatted month, day or year differ produce different maps. -/
theorem claim_C9_wall_clock (t1 t2 : Today) (data : InputRecord)
    (hd : data.signature_info.date_signed = "")
    (hm : pyFormat02 t1.month ≠ pyFormat02 t2.month ∨
          pyFormat02 t1.day ≠ pyFormat02 t2.day ∨
          toString t1.year ≠ toString t2.year) :
    create_field_mapping t1 data ≠ create_field_mapping t2 data := by
  intro he
  obtain ⟨hm1, hd1, hy1⟩ := lookup_sig_date t1 data hd
  obtain ⟨hm2, hd2, hy2⟩ := lookup_sig_date t2 data hd
  rw [he] at hm1 hd1 hy1
  rcases hm with h | h | h
  · exact h (Option.some_inj.mp (hm1.symm.trans hm2))
  · exact h (Option.some_inj.mp (hd1.symm.trans hd2))
  · exact h (Option.some_inj.mp (hy1.symm.trans hy2))

/-- Witness for C9: the same record mapped on two concrete different days
yields different maps. -/
theorem claim_C9_witness :
    create_field_mapping sampleToday sampleRecord ≠
      create_field_mapping otherToday sampleRecord :=
  claim_C9_wall_clock sampleToday otherToday sampleRecord rfl (Or.inl (by decide))

/-- Claim C10: a nameless field (`/T` absent) is skipped without
descending, so its whole subtree contributes no addressable path; any
target path that could only resolve at or below a nameless node (in
particular one containing a synthesized `unnamed_field_<n>` component,
which only ever stands for a nameless node) is reported not found and no
node is modified. -/
theorem claim_C10_nameless_unreachable :
    (∀ (ft v a : Option String) (kids fs : List Field) (parentPath : String),
      reachablePaths (Field.mk none ft v a kids :: fs) parentPath =
        reachablePaths fs parentPath) ∧
    (∀ (fields : List Field) (target value : String),
      target ∉ reachablePaths fields "" →
      findAndFill fields target value "" = (fields, false)) := by
  constructor
  · intro ft v a kids fs parentPath
    rw [reachablePaths]
  · intro fields target value h
    exact findAndFill_not_reachable fields target value "" h

/-- Witness for C10: a named child `X` hidden under a nameless parent is
unreachable — the write reports not found and the tree is unchanged. -/
theorem claim_C10_witness :
    reachablePaths [namelessField] "" = [] ∧
    findAndFill [namelessField] "X" "fill" "" = ([namelessField], false) := by
  have hr : reachablePaths [namelessField] "" = [] := by
    simp [reachablePaths, namelessField]
  exact ⟨hr, claim_C10_nameless_unreachable.2 [namelessField] "X" "fill" (by simp [hr])⟩

end VAForm
